import Mathlib

/-!
Shallow embedding of the rotating-channel gatekeeper bot (src/bot.py).

User identifiers and configured channel identifiers are Telegram integer
ids, modelled as `Int`.  Per-channel progress is a pair of python lists
(`pending`, `counted`) of user ids; the global state is the JSON record
`{"active_index": ..., "channels": [...]}`.  The Telegram transport, the
file sending and the on-disk persistence are external; the membership
oracle (`bot.get_chat_member`) is modelled as an explicit answer passed to
each operation, one answer per call the source makes.
-/

namespace Bot

/-- One entry of the configured `CHANNELS` list: Telegram chat id and
invite link. -/
structure ChannelCfg where
  id : Int
  invite : String
  deriving Repr, DecidableEq

/-- The configured channel list of src/bot.py. -/
def CHANNELS : List ChannelCfg := [
  { id := -1002866596290, invite := "https://t.me/+vkaa61Ruo5Q5Yjk1" },
  { id := -1002585307628, invite := "https://t.me/+XqEETQ8WhCpiYmRl" },
  { id := -1002821688382, invite := "https://t.me/+hedhygcXrxAxOTA1" }]

/-- `REQUIRED_JOINS = 1`: number of joins needed before advancing. -/
def REQUIRED_JOINS : Nat := 1

/-- One entry of `state["channels"]`: the python lists `pending` and
`counted` of user ids. -/
structure ChannelProgress where
  pending : List Int
  counted : List Int
  deriving Repr, DecidableEq

/-- The mutable global state: `{"active_index": ..., "channels": [...]}`.
`active_index` is a python int; `load_state` never range-checks it, so the
field is an unrestricted `Int`. -/
structure GlobalState where
  active_index : Int
  channels : List ChannelProgress
  deriving Repr, DecidableEq

/-- `default_state()`: active index 0 and one empty progress entry per
configured channel. -/
def default_state : GlobalState :=
  { active_index := 0,
    channels := List.replicate CHANNELS.length { pending := [], counted := [] } }

/-- The persisted content `load_state` starts from: `unreadable` is a
missing `bot_state.json` or a `json.load` failure (both fall back to
`default_state`); `record` is a parsed JSON object, `none` standing for a
missing `"active_index"` key, resp. a missing or non-list `"channels"`
key. -/
inductive StoredState where
  | unreadable : StoredState
  | record (active_index : Option Int) (channels : Option (List ChannelProgress)) : StoredState
  deriving Repr, DecidableEq

/-- `load_state()`: fall back to the default on unreadable input, default a
missing `active_index` to 0, default a missing/non-list `channels`, then pad
the channel list with empty entries up to the configured length and truncate
past it.  The loaded `active_index` itself is taken as stored, unvalidated. -/
def load_state : StoredState → GlobalState
  | .unreadable => default_state
  | .record ai chs =>
      let active := ai.getD 0
      let cs0 := chs.getD (List.replicate CHANNELS.length { pending := [], counted := [] })
      let cs1 := cs0 ++ List.replicate (CHANNELS.length - cs0.length) { pending := [], counted := [] }
      { active_index := active, channels := cs1.take CHANNELS.length }

/-- `state["channels"][i]` for the indices the handlers use.  The source
indexes the python list directly; every state the handlers run on keeps the
list at the configured length with the used index inside it, so the default
entry of `getD` is never reached there. -/
def getCh (s : GlobalState) (i : Nat) : ChannelProgress :=
  (s.channels[i]?).getD { pending := [], counted := [] }

/-- In-place mutation of `state["channels"][i]`. -/
def setCh (s : GlobalState) (i : Nat) (c : ChannelProgress) : GlobalState :=
  { s with channels := s.channels.set i c }

/-- The `status` strings of a `get_chat_member` result that the source
inspects: `member`/`administrator`/`creator` (the membership test) and
`left`/`kicked` (the recount test in `ensure_pending`); `restricted` stands
for any other status string. -/
inductive MemberStatus where
  | member | administrator | creator | left | kicked | restricted
  deriving Repr, DecidableEq

/-- One `get_chat_member` call's outcome: a status, or a raised exception
(network/auth failure). -/
inductive OracleAnswer where
  | status (st : MemberStatus) : OracleAnswer
  | failure : OracleAnswer
  deriving Repr, DecidableEq

/-- `is_member`: `res.status in ("member", "administrator", "creator")`,
with any exception caught and turned into `False`. -/
def is_member : OracleAnswer → Bool
  | .status .member => true
  | .status .administrator => true
  | .status .creator => true
  | _ => false

/-- `status in ("left", "kicked")` where a raised exception left
`status = None`. -/
def status_left_kicked : OracleAnswer → Bool
  | .status .left => true
  | .status .kicked => true
  | _ => false

/-- `ensure_pending(state, channel_idx, user_id, bot)`: drop the user from
`counted` only when the (fresh) status check says left/kicked, then append
the user to `pending` when absent.  `ans` is the outcome of the
`get_chat_member` call this helper itself makes. -/
def ensure_pending (s : GlobalState) (channel_idx : Nat) (user_id : Int)
    (ans : OracleAnswer) : GlobalState :=
  let ch := getCh s channel_idx
  let counted1 :=
    if status_left_kicked ans ∧ user_id ∈ ch.counted then ch.counted.erase user_id
    else ch.counted
  let pending1 :=
    if user_id ∈ ch.pending then ch.pending else ch.pending ++ [user_id]
  setCh s channel_idx { pending := pending1, counted := counted1 }

/-- `mark_counted_if_pending(state, channel_idx, user_id)`: already counted
users are refused; a pending user is removed from `pending` (first
occurrence, as python `list.remove`) and appended to `counted`. -/
def mark_counted_if_pending (s : GlobalState) (channel_idx : Nat) (user_id : Int) :
    GlobalState × Bool :=
  let ch := getCh s channel_idx
  if user_id ∈ ch.counted then (s, false)
  else if user_id ∈ ch.pending then
    (setCh s channel_idx
      { pending := ch.pending.erase user_id, counted := ch.counted ++ [user_id] }, true)
  else (s, false)

/-- `advance_if_needed(state)`: read the channel at the current
`active_index`; when its `counted` length meets `REQUIRED_JOINS`, set
`active_index := (active_index + 1) % len(CHANNELS)`.  Nothing else — in
particular no channel entry — is touched. -/
def advance_if_needed (s : GlobalState) : GlobalState × Bool :=
  let counted_len := (getCh s s.active_index.toNat).counted.length
  if REQUIRED_JOINS ≤ counted_len then
    ({ s with active_index := (s.active_index + 1) % (CHANNELS.length : Int) }, true)
  else (s, false)

/-- The observable replies of the `/start` handler. -/
inductive StartResult where
  /-- "You joined Channel i — counted! Channel advanced." -/
  | countedAdvanced : StartResult
  /-- "You are a member of Channel i. Here are your files:" -/
  | countedFiles : StartResult
  /-- "You are already a member of Channel i. Sending files:" -/
  | alreadyMember : StartResult
  /-- the join-link + verify keyboard prompt -/
  | joinPrompt : StartResult
  deriving Repr, DecidableEq

/-- The `/start` handler (`RequestAccess`).  It always acts on the current
`active_index`.  `member_ans` is the outcome of the `get_chat_member` call
made by `is_member`; `followup_ans` the outcome of the separate call
`ensure_pending` makes on the not-a-member path.  `save_state` calls are
external persistence, no-ops on the in-memory state modelled here. -/
def start (s : GlobalState) (user_id : Int)
    (member_ans followup_ans : OracleAnswer) : GlobalState × StartResult :=
  let idx := s.active_index.toNat
  if is_member member_ans then
    let r := mark_counted_if_pending s idx user_id
    if r.2 then
      let a := advance_if_needed r.1
      if a.2 then (a.1, .countedAdvanced) else (a.1, .countedFiles)
    else (r.1, .alreadyMember)
  else
    (ensure_pending s idx user_id followup_ans, .joinPrompt)

/-- python `str.split(sep)` on a one-character separator, over the string's
characters. -/
def py_split (sep : Char) : List Char → List (List Char)
  | [] => [[]]
  | c :: cs =>
    match py_split sep cs with
    | [] => [[c]]
    | r :: rs => if c = sep then [] :: r :: rs else (c :: r) :: rs

/-- Value of a digit string, as python `int` on a string `isdigit` accepted. -/
def digits_to_nat (cs : List Char) : Nat :=
  cs.foldl (fun n c => 10 * n + (c.toNat - 48)) 0

/-- The parsing prelude of `verify_callback`: split the callback data on
`"_"`, demand exactly two parts, demand `parts[1].isdigit()` (python:
nonempty, all digits), and read the index. -/
def parse_verify_data (data : String) : Option Nat :=
  match py_split '_' data.toList with
  | [_, ds] => if ds ≠ [] ∧ ds.all Char.isDigit then some (digits_to_nat ds) else none
  | _ => none

/-- The observable replies of the verify callback handler. -/
inductive VerifyResult where
  /-- "Invalid verification request." (split/isdigit guard) -/
  | malformed : VerifyResult
  /-- "That channel is no longer available." (range guard) -/
  | invalidChannel : VerifyResult
  /-- "I still don't see you as a member of that channel." -/
  | notMember : VerifyResult
  /-- "Verified & counted" plus the advancement announcement -/
  | countedAndAdvanced : VerifyResult
  /-- "Verified & counted for Channel i. Here are your files:" -/
  | counted : VerifyResult
  /-- "You were already counted for Channel i. Sending files again:" -/
  | alreadyCounted : VerifyResult
  /-- "member, but not in pending list. Not counted, but here are your files" -/
  | notPending : VerifyResult
  deriving Repr, DecidableEq

/-- `verify_callback` from the point where `target_idx = int(parts[1])` is
in hand (`Verify(user, channelIndex)`): range-check the index, check
membership, attempt the pending→counted transition, and advance only when
`state["active_index"] == target_idx`. -/
def verify_parsed (s : GlobalState) (user_id : Int) (target_idx : Int)
    (member_ans : OracleAnswer) : GlobalState × VerifyResult :=
  if target_idx < 0 ∨ (CHANNELS.length : Int) ≤ target_idx then (s, .invalidChannel)
  else if is_member member_ans then
    let t := target_idx.toNat
    let r := mark_counted_if_pending s t user_id
    if r.2 then
      if r.1.active_index = target_idx then
        let a := advance_if_needed r.1
        if a.2 then (a.1, .countedAndAdvanced) else (a.1, .counted)
      else (r.1, .counted)
    else
      if user_id ∈ (getCh r.1 t).counted then (r.1, .alreadyCounted)
      else (r.1, .notPending)
  else (s, .notMember)

/-- The full verify callback handler: parse `query.data`, then run the
indexed verification. -/
def verify_callback (s : GlobalState) (user_id : Int) (data : String)
    (member_ans : OracleAnswer) : GlobalState × VerifyResult :=
  match parse_verify_data data with
  | none => (s, .malformed)
  | some t => verify_parsed s user_id (t : Int) member_ans

/-- One inbound event together with the oracle answers its handler's
`get_chat_member` calls receive. -/
inductive Event where
  | startEv (user : Int) (member_ans followup_ans : OracleAnswer) : Event
  | verifyEv (user : Int) (data : String) (member_ans : OracleAnswer) : Event
  deriving Repr, DecidableEq

/-- The state transition of one event. -/
def stepState (s : GlobalState) : Event → GlobalState
  | .startEv u a b => (start s u a b).1
  | .verifyEv u d a => (verify_callback s u d a).1

/-- The state after running a sequence of events from the fresh default
state. -/
def run (events : List Event) : GlobalState :=
  events.foldl stepState default_state

end Bot

namespace Bot

/-! Structural lemmas about the state helpers. -/

theorem setCh_active_index (s : GlobalState) (i : Nat) (c : ChannelProgress) :
    (setCh s i c).active_index = s.active_index := rfl

theorem setCh_channels_length (s : GlobalState) (i : Nat) (c : ChannelProgress) :
    (setCh s i c).channels.length = s.channels.length := by
  simp [setCh]

theorem getCh_setCh_self (s : GlobalState) (i : Nat) (c : ChannelProgress)
    (h : i < s.channels.length) : getCh (setCh s i c) i = c := by
  simp [getCh, setCh, List.getElem?_set_self h]

theorem getCh_setCh_ne (s : GlobalState) (i j : Nat) (c : ChannelProgress)
    (h : i ≠ j) : getCh (setCh s i c) j = getCh s j := by
  simp [getCh, setCh, List.getElem?_set_ne h]

theorem mark_active_index (s : GlobalState) (t : Nat) (u : Int) :
    (mark_counted_if_pending s t u).1.active_index = s.active_index := by
  unfold mark_counted_if_pending
  by_cases h1 : u ∈ (getCh s t).counted
  · simp [h1]
  · by_cases h2 : u ∈ (getCh s t).pending <;> simp [h1, h2, setCh_active_index]

theorem mark_channels_length (s : GlobalState) (t : Nat) (u : Int) :
    (mark_counted_if_pending s t u).1.channels.length = s.channels.length := by
  unfold mark_counted_if_pending
  by_cases h1 : u ∈ (getCh s t).counted
  · simp [h1]
  · by_cases h2 : u ∈ (getCh s t).pending <;> simp [h1, h2, setCh_channels_length]

theorem advance_channels (s : GlobalState) :
    (advance_if_needed s).1.channels = s.channels := by
  unfold advance_if_needed
  by_cases h : REQUIRED_JOINS ≤ (getCh s s.active_index.toNat).counted.length <;> simp [h]

theorem advance_active_index (s : GlobalState) :
    (advance_if_needed s).1.active_index = s.active_index ∨
      (advance_if_needed s).1.active_index = (s.active_index + 1) % (CHANNELS.length : Int) := by
  unfold advance_if_needed
  by_cases h : REQUIRED_JOINS ≤ (getCh s s.active_index.toNat).counted.length <;> simp [h]

theorem ensure_active_index (s : GlobalState) (t : Nat) (u : Int) (ans : OracleAnswer) :
    (ensure_pending s t u ans).active_index = s.active_index := by
  unfold ensure_pending
  exact setCh_active_index ..

/-! The per-channel bookkeeping invariant: both lists duplicate-free and
no user in both. -/

/-- A channel entry is well formed: `pending` and `counted` are
duplicate-free and share no user id. -/
def chInv (c : ChannelProgress) : Prop :=
  c.pending.Nodup ∧ c.counted.Nodup ∧ ∀ x, x ∈ c.pending → x ∉ c.counted

/-- Every channel entry of the state is well formed. -/
def stateInv (s : GlobalState) : Prop := ∀ c ∈ s.channels, chInv c

theorem chInv_empty : chInv { pending := [], counted := [] } := by
  refine ⟨List.nodup_nil, List.nodup_nil, ?_⟩
  intro x hx
  simp at hx

theorem stateInv_default : stateInv default_state := by
  intro c hc
  rw [List.eq_of_mem_replicate hc]
  exact chInv_empty

theorem chInv_getCh {s : GlobalState} (h : stateInv s) (i : Nat) : chInv (getCh s i) := by
  unfold getCh
  cases he : s.channels[i]? with
  | none => exact chInv_empty
  | some c => exact h c (List.getElem?_mem he)

theorem stateInv_setCh {s : GlobalState} {c : ChannelProgress} (h : stateInv s)
    (hc : chInv c) (i : Nat) : stateInv (setCh s i c) := by
  intro x hx
  rcases List.mem_or_eq_of_mem_set hx with h1 | rfl
  · exact h x h1
  · exact hc

theorem stateInv_mark {s : GlobalState} (h : stateInv s) (t : Nat) (u : Int) :
    stateInv (mark_counted_if_pending s t u).1 := by
  unfold mark_counted_if_pending
  by_cases h1 : u ∈ (getCh s t).counted
  · simpa [h1] using h
  · by_cases h2 : u ∈ (getCh s t).pending
    · simp only [h1, h2, if_true, if_false, ite_true, ite_false]
      obtain ⟨hp, hc, hd⟩ := chInv_getCh h t
      refine stateInv_setCh h ⟨hp.erase u, ?_, ?_⟩ t
      · refine hc.append (by simp) ?_
        intro x hx hxu
        simp at hxu
        exact h1 (hxu ▸ hx)
      · intro x hx
        obtain ⟨hne, hxp⟩ := (List.Nodup.mem_erase_iff hp).mp hx
        intro hmem
        rcases List.mem_append.mp hmem with hm | hm
        · exact hd x hxp hm
        · simp at hm
          exact hne hm
    · simpa [h1, h2] using h

theorem stateInv_ensure {s : GlobalState} (h : stateInv s) (t : Nat) (u : Int)
    {ans : OracleAnswer} (hlk : status_left_kicked ans = true) :
    stateInv (ensure_pending s t u ans) := by
  unfold ensure_pending
  obtain ⟨hp, hc, hd⟩ := chInv_getCh h t
  set ch := getCh s t with hch
  have hcounted : ∀ x, x ∈ (if status_left_kicked ans ∧ u ∈ ch.counted
      then ch.counted.erase u else ch.counted) → x ∈ ch.counted ∧ x ≠ u := by
    intro x hx
    by_cases hin : u ∈ ch.counted
    · simp only [hlk, hin, and_self, if_true, true_and, ite_true] at hx
      obtain ⟨hne, hxc⟩ := (List.Nodup.mem_erase_iff hc).mp hx
      exact ⟨hxc, hne⟩
    · simp only [hin, and_false, if_false, ite_false] at hx
      exact ⟨hx, fun he => hin (he ▸ hx)⟩
  refine stateInv_setCh h ⟨?_, ?_, ?_⟩ t
  · by_cases h2 : u ∈ ch.pending
    · simpa [h2] using hp
    · simp only [h2, if_false, ite_false]
      refine hp.append (by simp) ?_
      intro x hx hxu
      simp at hxu
      exact h2 (hxu ▸ hx)
  · by_cases hin : u ∈ ch.counted <;> simp [hlk, hin, hc, hc.erase u]
  · intro x hx hmem
    obtain ⟨hxc, hne⟩ := hcounted x hmem
    by_cases h2 : u ∈ ch.pending
    · simp only [h2, if_true, ite_true] at hx
      exact hd x hx hxc
    · simp only [h2, if_false, ite_false] at hx
      rcases List.mem_append.mp hx with hm | hm
      · exact hd x hm hxc
      · simp at hm
        exact hne hm

theorem stateInv_advance {s : GlobalState} (h : stateInv s) :
    stateInv (advance_if_needed s).1 := by
  intro c hc
  rw [advance_channels s] at hc
  exact h c hc

/-- The oracle-answer discipline under which the disjointness invariant is
preserved: whenever a `/start` takes the not-a-member path, the status
re-check inside `ensure_pending` reports left or kicked. -/
def goodEvent : Event → Bool
  | .startEv _ a b => is_member a || status_left_kicked b
  | .verifyEv _ _ _ => true

theorem stateInv_step {s : GlobalState} (h : stateInv s) {e : Event}
    (hg : goodEvent e = true) : stateInv (stepState s e) := by
  cases e with
  | startEv u a b =>
    unfold stepState start
    by_cases hm : is_member a
    · simp only [hm, if_true, ite_true]
      by_cases h2 : (mark_counted_if_pending s s.active_index.toNat u).2
      · simp only [h2, if_true, ite_true]
        by_cases h3 : (advance_if_needed (mark_counted_if_pending s s.active_index.toNat u).1).2 <;>
          simp only [h3, if_true, if_false, ite_true, ite_false] <;>
          exact stateInv_advance (stateInv_mark h _ u)
      · simp only [h2, if_false, ite_false]
        exact stateInv_mark h _ u
    · simp only [hm, if_false, ite_false]
      simp only [goodEvent, Bool.or_eq_true] at hg
      rcases hg with hg | hg
      · exact absurd hg hm
      · exact stateInv_ensure h _ u hg
  | verifyEv u d a =>
    have hvp : ∀ ti : Int, stateInv (verify_parsed s u ti a).1 := by
      intro ti
      unfold verify_parsed
      by_cases hr : ti < 0 ∨ (CHANNELS.length : Int) ≤ ti
      · simpa [hr] using h
      · by_cases hm : is_member a
        · simp only [hr, hm, if_true, if_false, ite_true, ite_false]
          by_cases h2 : (mark_counted_if_pending s ti.toNat u).2
          · simp only [h2, if_true, ite_true]
            by_cases h4 : (mark_counted_if_pending s ti.toNat u).1.active_index = ti
            · simp only [h4, if_true, ite_true]
              by_cases h3 : (advance_if_needed (mark_counted_if_pending s ti.toNat u).1).2 <;>
                simp only [h3, if_true, if_false, ite_true, ite_false] <;>
                exact stateInv_advance (stateInv_mark h _ u)
            · simp only [h4, if_false, ite_false]
              exact stateInv_mark h _ u
          · simp only [h2, if_false, ite_false]
            by_cases h5 : u ∈ (getCh (mark_counted_if_pending s ti.toNat u).1 ti.toNat).counted <;>
              simp only [h5, if_true, if_false, ite_true, ite_false] <;>
              exact stateInv_mark h _ u
        · simpa [hr, hm] using h
    unfold stepState verify_callback
    cases hpd : parse_verify_data d with
    | none => simp only [hpd]; exact h
    | some t => simp only [hpd]; exact hvp t

theorem stateInv_foldl {evs : List Event} :
    ∀ s : GlobalState, stateInv s → (∀ e ∈ evs, goodEvent e = true) →
      stateInv (evs.foldl stepState s) := by
  induction evs with
  | nil => intro s h _; exact h
  | cons e rest ih =>
    intro s h hg
    simp only [List.foldl_cons]
    exact ih _ (stateInv_step h (hg e (by simp))) (fun x hx => hg x (by simp [hx]))

/-! Branch characterisations of the operations. -/

theorem mark_eq_of_not (s : GlobalState) (t : Nat) (u : Int)
    (h : u ∈ (getCh s t).counted ∨ u ∉ (getCh s t).pending) :
    mark_counted_if_pending s t u = (s, false) := by
  unfold mark_counted_if_pending
  by_cases hc : u ∈ (getCh s t).counted
  · simp [hc]
  · have hp : u ∉ (getCh s t).pending := h.resolve_left hc
    simp [hc, hp]

/-- The channel entry after `mark_counted_if_pending` credits `u`. -/
def credited (ch : ChannelProgress) (u : Int) : ChannelProgress :=
  { pending := ch.pending.erase u, counted := ch.counted ++ [u] }

theorem mark_eq_of_pending (s : GlobalState) (t : Nat) (u : Int)
    (hc : u ∉ (getCh s t).counted) (hp : u ∈ (getCh s t).pending) :
    mark_counted_if_pending s t u = (setCh s t (credited (getCh s t) u), true) := by
  unfold mark_counted_if_pending credited
  simp [hc, hp]

theorem getCh_congr {s₁ s₂ : GlobalState} (h : s₁.channels = s₂.channels) (i : Nat) :
    getCh s₁ i = getCh s₂ i := by
  simp [getCh, h]

theorem verify_parsed_invalid (s : GlobalState) (u ti : Int) (ans : OracleAnswer)
    (hr : ti < 0 ∨ (CHANNELS.length : Int) ≤ ti) :
    verify_parsed s u ti ans = (s, .invalidChannel) := by
  unfold verify_parsed
  simp [hr]

theorem verify_parsed_notMember (s : GlobalState) (u ti : Int) (ans : OracleAnswer)
    (hm : is_member ans = false) :
    verify_parsed s u ti ans =
      if ti < 0 ∨ (CHANNELS.length : Int) ≤ ti then (s, .invalidChannel)
      else (s, .notMember) := by
  unfold verify_parsed
  by_cases hr : ti < 0 ∨ (CHANNELS.length : Int) ≤ ti <;> simp [hr, hm]

theorem verify_parsed_already (s : GlobalState) (u ti : Int) (ans : OracleAnswer)
    (hr : ¬ (ti < 0 ∨ (CHANNELS.length : Int) ≤ ti)) (hm : is_member ans = true)
    (hcnt : u ∈ (getCh s ti.toNat).counted) :
    verify_parsed s u ti ans = (s, .alreadyCounted) := by
  unfold verify_parsed
  simp only [hr, hm, if_true, if_false, ite_true, ite_false]
  rw [mark_eq_of_not s ti.toNat u (Or.inl hcnt)]
  simp [hcnt]

theorem verify_parsed_notPending (s : GlobalState) (u ti : Int) (ans : OracleAnswer)
    (hr : ¬ (ti < 0 ∨ (CHANNELS.length : Int) ≤ ti)) (hm : is_member ans = true)
    (hp : u ∉ (getCh s ti.toNat).pending) (hc : u ∉ (getCh s ti.toNat).counted) :
    verify_parsed s u ti ans = (s, .notPending) := by
  unfold verify_parsed
  simp only [hr, hm, if_true, if_false, ite_true, ite_false]
  rw [mark_eq_of_not s ti.toNat u (Or.inr hp)]
  simp [hc]

theorem verify_parsed_newly_channels (s : GlobalState) (u ti : Int) (ans : OracleAnswer)
    (hr : ¬ (ti < 0 ∨ (CHANNELS.length : Int) ≤ ti)) (hm : is_member ans = true)
    (hc : u ∉ (getCh s ti.toNat).counted) (hp : u ∈ (getCh s ti.toNat).pending) :
    (verify_parsed s u ti ans).1.channels =
      (setCh s ti.toNat (credited (getCh s ti.toNat) u)).channels := by
  unfold verify_parsed
  simp only [hr, hm, if_true, if_false, ite_true, ite_false]
  rw [mark_eq_of_pending s ti.toNat u hc hp]
  simp only [if_true, ite_true]
  by_cases h4 : (setCh s ti.toNat (credited (getCh s ti.toNat) u)).active_index = ti
  · simp only [h4, ite_true]
    by_cases h3 : (advance_if_needed (setCh s ti.toNat (credited (getCh s ti.toNat) u))).2 <;>
      simp only [h3, ite_true, ite_false] <;> exact advance_channels _
  · simp only [h4, ite_false]

/-! Evolution of `active_index` under the handlers. -/

theorem mark_then_advance_active (s : GlobalState) (t : Nat) (u : Int) :
    (advance_if_needed (mark_counted_if_pending s t u).1).1.active_index = s.active_index ∨
    (advance_if_needed (mark_counted_if_pending s t u).1).1.active_index =
      (s.active_index + 1) % (CHANNELS.length : Int) := by
  have hma := mark_active_index s t u
  rcases advance_active_index (mark_counted_if_pending s t u).1 with h | h
  · left; rw [h, hma]
  · right; rw [h, hma]

theorem start_active (s : GlobalState) (u : Int) (a b : OracleAnswer) :
    (start s u a b).1.active_index = s.active_index ∨
    (start s u a b).1.active_index = (s.active_index + 1) % (CHANNELS.length : Int) := by
  unfold start
  by_cases hm : is_member a
  · simp only [hm, ite_true]
    by_cases h2 : (mark_counted_if_pending s s.active_index.toNat u).2
    · simp only [h2, ite_true]
      by_cases h3 : (advance_if_needed (mark_counted_if_pending s s.active_index.toNat u).1).2 <;>
        simp only [h3, ite_true, ite_false] <;>
        exact mark_then_advance_active s s.active_index.toNat u
    · simp only [h2, ite_false]
      left
      exact mark_active_index s s.active_index.toNat u
  · simp only [hm, ite_false]
    left
    exact ensure_active_index s s.active_index.toNat u b

theorem verify_parsed_active (s : GlobalState) (u ti : Int) (ans : OracleAnswer) :
    (verify_parsed s u ti ans).1.active_index = s.active_index ∨
    (verify_parsed s u ti ans).1.active_index =
      (s.active_index + 1) % (CHANNELS.length : Int) := by
  unfold verify_parsed
  by_cases hr : ti < 0 ∨ (CHANNELS.length : Int) ≤ ti
  · simp [hr]
  · by_cases hm : is_member ans
    · simp only [hr, hm, if_true, if_false, ite_true, ite_false]
      by_cases h2 : (mark_counted_if_pending s ti.toNat u).2
      · simp only [h2, ite_true]
        by_cases h4 : (mark_counted_if_pending s ti.toNat u).1.active_index = ti
        · simp only [h4, ite_true]
          by_cases h3 : (advance_if_needed (mark_counted_if_pending s ti.toNat u).1).2 <;>
            simp only [h3, ite_true, ite_false] <;>
            exact mark_then_advance_active s ti.toNat u
        · simp only [h4, ite_false]
          left
          exact mark_active_index s ti.toNat u
      · simp only [h2, ite_false]
        by_cases h5 : u ∈ (getCh (mark_counted_if_pending s ti.toNat u).1 ti.toNat).counted <;>
          simp only [h5, ite_true, ite_false] <;> left <;>
          exact mark_active_index s ti.toNat u
    · simp [hr, hm]

theorem step_active (s : GlobalState) (e : Event) :
    (stepState s e).active_index = s.active_index ∨
    (stepState s e).active_index = (s.active_index + 1) % (CHANNELS.length : Int) := by
  cases e with
  | startEv u a b => exact start_active s u a b
  | verifyEv u d a =>
    unfold stepState verify_callback
    cases hpd : parse_verify_data d with
    | none => simp [hpd]
    | some t => simp only [hpd]; exact verify_parsed_active s u (t : Int) a

theorem foldl_active_range (evs : List Event) :
    ∀ s : GlobalState, 0 ≤ s.active_index → s.active_index < (CHANNELS.length : Int) →
      0 ≤ (evs.foldl stepState s).active_index ∧
        (evs.foldl stepState s).active_index < (CHANNELS.length : Int) := by
  induction evs with
  | nil => intro s h0 h1; exact ⟨h0, h1⟩
  | cons e rest ih =>
    intro s h0 h1
    simp only [List.foldl_cons]
    rcases step_active s e with h | h
    · exact ih _ (h ▸ h0) (h ▸ h1)
    · refine ih _ ?_ ?_
      · rw [h]
        exact Int.emod_nonneg _ (by decide)
      · rw [h]
        exact Int.emod_lt_of_pos _ (by decide)

/-! Concrete states and event traces used by the per-claim theorems. -/

/-- A state with user 5 pending for channel 0 and nothing else. -/
def sampleState : GlobalState :=
  { active_index := 0,
    channels := [{ pending := [5], counted := [] },
      { pending := [], counted := [] }, { pending := [], counted := [] }] }

/-- The state after user 7 was shown the join prompt from the fresh state. -/
def promptedState : GlobalState :=
  (start default_state 7 (.status .left) (.status .left)).1

/-- One full rotation: users 1, 2, 3 each get prompted for and verify
channels 0, 1, 2 in turn (REQUIRED_JOINS is 1), bringing `active_index`
back to 0 while channel 0's `counted` still holds user 1. -/
def rotationTrace : List Event := [
  .startEv 1 (.status .left) (.status .left),
  .verifyEv 1 "verify_0" (.status .member),
  .startEv 2 (.status .left) (.status .left),
  .verifyEv 2 "verify_1" (.status .member),
  .startEv 3 (.status .left) (.status .left),
  .verifyEv 3 "verify_2" (.status .member)]

/-- Users 1 and 2 are prompted for channel 0; user 1 verifies (advancing to
channel 1), then user 3 is prompted for and verifies channel 1 (advancing
to channel 2).  User 2 is still pending for channel 0. -/
def crossTrace : List Event := [
  .startEv 1 (.status .left) (.status .left),
  .startEv 2 (.status .left) (.status .left),
  .verifyEv 1 "verify_0" (.status .member),
  .startEv 3 (.status .left) (.status .left),
  .verifyEv 3 "verify_1" (.status .member)]

/-- A single prompting event, leaving user 1 pending for channel 0. -/
def promptTrace : List Event := [.startEv 1 (.status .left) (.status .left)]

/-- A state sitting on the last configured channel with its threshold met. -/
def finalChannelState : GlobalState :=
  { active_index := 2,
    channels := [{ pending := [], counted := [] },
      { pending := [], counted := [] }, { pending := [], counted := [9] }] }

/-! C1.  The claim says advancing resets the completed channel's `pending`
and `counted` to empty.  `advance_if_needed` only moves `active_index`;
the sets survive advancement, so the claim is false on the code. -/

/-- C1 counterexample: from the fresh state, user 1 is prompted for channel
0 and then verifies; the channel advances (reply `countedAndAdvanced`), yet
channel 0's `counted` set is not reset to empty. -/
theorem C1_counterexample :
    (verify_callback (start default_state 1 (.status .left) (.status .left)).1 1 "verify_0"
      (.status .member)).2 = .countedAndAdvanced ∧
    (getCh (verify_callback (start default_state 1 (.status .left) (.status .left)).1 1
      "verify_0" (.status .member)).1 0).counted ≠ [] := by
  decide

/-- C1 (amended): advancement changes only `active_index`; every channel's
`pending` and `counted` sets — the completed channel's included — are left
exactly as crediting left them, with no reset. -/
theorem C1_theorem : ∀ s : GlobalState, (advance_if_needed s).1.channels = s.channels :=
  advance_channels

/-! C2.  The claim says a `/start` from an already-member user returns
`AlreadyMember` and never mutates `pending`/`counted`.  The code instead
runs the same pending→counted crediting as `Verify` on that path. -/

/-- C2 counterexample: user 7 is pending for channel 0; a `/start` while
the oracle reports membership does not reply `alreadyMember` and changes
channel 0's `counted` set. -/
theorem C2_counterexample :
    (start promptedState 7 (.status .member) (.status .member)).2 ≠ .alreadyMember ∧
    (getCh (start promptedState 7 (.status .member) (.status .member)).1 0).counted ≠
      (getCh promptedState 0).counted := by
  decide

/-- C2 (amended): a `/start` from a member returns `alreadyMember` and
leaves the state entirely unchanged exactly when the user is not pending
for the active channel (or already counted); a pending member is credited
as by `Verify` instead. -/
theorem C2_theorem (s : GlobalState) (u : Int) (a b : OracleAnswer)
    (hm : is_member a = true)
    (h : u ∈ (getCh s s.active_index.toNat).counted ∨
      u ∉ (getCh s s.active_index.toNat).pending) :
    start s u a b = (s, .alreadyMember) := by
  unfold start
  simp only [hm, if_true, ite_true]
  rw [mark_eq_of_not s s.active_index.toNat u h]
  simp

/-- C2 witness: user 5 is unknown to the fresh state, so a member `/start`
replies `alreadyMember` and changes nothing. -/
theorem C2_witness :
    ((5 : Int) ∉ (getCh default_state default_state.active_index.toNat).pending) ∧
    start default_state 5 (.status .member) (.status .member) =
      (default_state, .alreadyMember) :=
  ⟨by decide, C2_theorem default_state 5 (.status .member) (.status .member) rfl
    (Or.inr (by decide))⟩

/-! C3.  The claim asserts `pending ∩ counted = ∅` for every channel in
every state reachable with arbitrary oracle answers, errors included.
`ensure_pending` only cleans `counted` when the status re-check says
left/kicked, so an erroring oracle puts a counted user into `pending` too. -/

/-- C3 counterexample: after a full rotation, user 1 (counted for channel
0) issues `/start` while both oracle calls fail; user 1 ends up in channel
0's `pending` and `counted` at once. -/
theorem C3_counterexample :
    (1 : Int) ∈ (getCh (run (rotationTrace ++ [.startEv 1 .failure .failure])) 0).pending ∧
    (1 : Int) ∈ (getCh (run (rotationTrace ++ [.startEv 1 .failure .failure])) 0).counted := by
  decide

/-- C3 (amended): in every state reachable from the fresh state by events
whose `/start` not-a-member paths get a left/kicked answer from the status
re-check (`goodEvent`), no user id is in both `pending` and `counted` of
any channel. -/
theorem C3_theorem (evs : List Event) (hg : evs.all goodEvent = true) :
    ∀ c ∈ (run evs).channels, ∀ x : Int, x ∈ c.pending → x ∉ c.counted := by
  have hinv : stateInv (run evs) :=
    stateInv_foldl default_state stateInv_default (fun e he => List.all_eq_true.mp hg e he)
  intro c hc x hx
  exact (hinv c hc).2.2 x hx

/-- C3 witness: the single-prompt trace is well behaved and the prompted
user is pending but not counted for channel 0. -/
theorem C3_witness :
    (promptTrace.all goodEvent = true) ∧ (1 : Int) ∉ (getCh (run promptTrace) 0).counted :=
  ⟨by decide, C3_theorem promptTrace (by decide) (getCh (run promptTrace) 0) (by decide) 1
    (by decide)⟩

/-! C4.  The claim keys threshold evaluation and advancement to the
credited `channelIndex` even when it differs from `activeIndex`.  The code
only advances when `state["active_index"] == target_idx`, and
`advance_if_needed` reads the active channel. -/

/-- C4 counterexample: after `crossTrace`, user 2 verifies channel 0 and is
credited; channel 0's counted size meets `REQUIRED_JOINS`, yet
`active_index` is not set to `(0 + 1) % channelCount`. -/
theorem C4_counterexample :
    (verify_callback (run crossTrace) 2 "verify_0" (.status .member)).2 = .counted ∧
    REQUIRED_JOINS ≤
      (getCh (verify_callback (run crossTrace) 2 "verify_0" (.status .member)).1 0).counted.length ∧
    (verify_callback (run crossTrace) 2 "verify_0" (.status .member)).1.active_index ≠
      (0 + 1) % (CHANNELS.length : Int) := by
  decide

/-- C4 (amended): after `Verify(u, channelIndex)` credits a user,
advancement happens only when `channelIndex` equals the current
`activeIndex` — then the threshold on the credited channel sets
`activeIndex := (channelIndex + 1) % channelCount`; when they differ,
`activeIndex` is unchanged even if the threshold is met. -/
theorem C4_theorem (s : GlobalState) (u ti : Int) (ans : OracleAnswer)
    (hlen : s.channels.length = CHANNELS.length)
    (ht0 : 0 ≤ ti) (ht1 : ti < (CHANNELS.length : Int))
    (hm : is_member ans = true)
    (hc : u ∉ (getCh s ti.toNat).counted) (hp : u ∈ (getCh s ti.toNat).pending) :
    (s.active_index = ti →
      REQUIRED_JOINS ≤ (getCh s ti.toNat).counted.length + 1 →
      (verify_parsed s u ti ans).1.active_index = (ti + 1) % (CHANNELS.length : Int)) ∧
    (s.active_index ≠ ti → (verify_parsed s u ti ans).1.active_index = s.active_index) := by
  have hr : ¬ (ti < 0 ∨ (CHANNELS.length : Int) ≤ ti) := by omega
  have htn : ti.toNat < s.channels.length := by omega
  unfold verify_parsed
  simp only [hr, hm, if_true, if_false, ite_true, ite_false]
  rw [mark_eq_of_pending s ti.toNat u hc hp]
  simp only [setCh_active_index]
  constructor
  · intro hact hth
    simp only [hact, if_true, ite_true]
    unfold advance_if_needed
    have hcond : REQUIRED_JOINS ≤
        (getCh (setCh s ti.toNat (credited (getCh s ti.toNat) u)) ti.toNat).counted.length := by
      rw [getCh_setCh_self s ti.toNat (credited (getCh s ti.toNat) u) htn]
      simpa [credited] using hth
    simp [setCh_active_index, hact, hcond]
  · intro hne
    simp [hne, setCh_active_index]

/-- C4 witness: in `sampleState` (user 5 pending for channel 0, active
index 0), verifying channel 0 advances the active index to
`(0 + 1) % channelCount`. -/
theorem C4_witness :
    sampleState.active_index = 0 ∧
    (verify_parsed sampleState 5 0 (.status .member)).1.active_index =
      (0 + 1) % (CHANNELS.length : Int) :=
  ⟨rfl, (C4_theorem sampleState 5 0 (.status .member) (by decide) (by decide) (by decide) rfl
    (by decide) (by decide)).1 rfl (by decide)⟩

/-! C5.  The claim says every loaded state has `activeIndex` in
`[0, channelCount)`.  `load_state` repairs the channel list but never
validates `active_index`, so an out-of-range persisted value survives the
load.  The operations themselves do only keep-or-increment-mod. -/

/-- C5 counterexample: loading a persisted record with `active_index = 5`
yields a state whose active index is 5, outside `[0, channelCount)`. -/
theorem C5_counterexample :
    (load_state (.record (some 5) (some []))).active_index = 5 ∧
    ¬ ((load_state (.record (some 5) (some []))).active_index < (CHANNELS.length : Int)) := by
  decide

/-- C5 (amended): every handler step either keeps `active_index` or moves
it to `(active_index + 1) % channelCount`; every state reached by events
from the fresh state stays in `[0, channelCount)`; and advancement from the
last channel wraps to 0.  `load_state`, however, does not validate a
persisted `active_index` (see the counterexample). -/
theorem C5_theorem :
    (∀ (s : GlobalState) (e : Event),
      (stepState s e).active_index = s.active_index ∨
      (stepState s e).active_index = (s.active_index + 1) % (CHANNELS.length : Int)) ∧
    (∀ evs : List Event, 0 ≤ (run evs).active_index ∧
      (run evs).active_index < (CHANNELS.length : Int)) ∧
    (∀ s : GlobalState, s.active_index = (CHANNELS.length : Int) - 1 →
      (advance_if_needed s).2 = true → (advance_if_needed s).1.active_index = 0) := by
  refine ⟨step_active, ?_, ?_⟩
  · intro evs
    exact foldl_active_range evs default_state (by decide) (by decide)
  · intro s hlast htrig
    simp only [advance_if_needed] at htrig ⊢
    by_cases h : REQUIRED_JOINS ≤ (getCh s s.active_index.toNat).counted.length
    · rw [if_pos h]
      show (s.active_index + 1) % (CHANNELS.length : Int) = 0
      rw [hlast]
      decide
    · rw [if_neg h] at htrig
      simp at htrig

/-- C5 witness: from the state sitting on the last channel with the
threshold met, advancement triggers and wraps the active index to 0. -/
theorem C5_witness :
    finalChannelState.active_index = (CHANNELS.length : Int) - 1 ∧
    (advance_if_needed finalChannelState).2 = true ∧
    (advance_if_needed finalChannelState).1.active_index = 0 :=
  ⟨by decide, by decide, C5_theorem.2.2 finalChannelState (by decide) (by decide)⟩

/-! C6.  The claim says two back-to-back member `Verify(u, c)` calls grow
`counted` exactly once, the second replying `AlreadyCounted`.  That is the
behaviour for an initially pending user; a user who never passed through
`pending` is never counted and the second reply is `notPending`. -/

/-- C6 counterexample: user 5 was never prompted; verifying channel 0 twice
from the fresh state grows `counted` zero times and the second reply is not
`alreadyCounted`. -/
theorem C6_counterexample :
    (getCh (verify_callback (verify_callback default_state 5 "verify_0" (.status .member)).1 5
      "verify_0" (.status .member)).1 0).counted.length =
      (getCh default_state 0).counted.length ∧
    (verify_callback (verify_callback default_state 5 "verify_0" (.status .member)).1 5
      "verify_0" (.status .member)).2 ≠ .alreadyCounted := by
  decide

/-- C6 (amended): for a user initially pending (and not counted) for a
valid channel, two successive member `Verify` calls append the user to
`counted` exactly once; the second call replies `alreadyCounted` and leaves
the state unchanged. -/
theorem C6_theorem (s : GlobalState) (u ti : Int) (ans : OracleAnswer)
    (hlen : s.channels.length = CHANNELS.length)
    (ht0 : 0 ≤ ti) (ht1 : ti < (CHANNELS.length : Int))
    (hm : is_member ans = true)
    (hc : u ∉ (getCh s ti.toNat).counted) (hp : u ∈ (getCh s ti.toNat).pending) :
    (getCh (verify_parsed (verify_parsed s u ti ans).1 u ti ans).1 ti.toNat).counted =
      (getCh s ti.toNat).counted ++ [u] ∧
    (verify_parsed (verify_parsed s u ti ans).1 u ti ans).2 = .alreadyCounted ∧
    (verify_parsed (verify_parsed s u ti ans).1 u ti ans).1 = (verify_parsed s u ti ans).1 := by
  have hr : ¬ (ti < 0 ∨ (CHANNELS.length : Int) ≤ ti) := by omega
  have htn : ti.toNat < s.channels.length := by omega
  have hch := verify_parsed_newly_channels s u ti ans hr hm hc hp
  have hgc : getCh (verify_parsed s u ti ans).1 ti.toNat = credited (getCh s ti.toNat) u := by
    rw [getCh_congr hch, getCh_setCh_self s ti.toNat (credited (getCh s ti.toNat) u) htn]
  have hin : u ∈ (getCh (verify_parsed s u ti ans).1 ti.toNat).counted := by
    rw [hgc]
    simp [credited]
  have h2 := verify_parsed_already (verify_parsed s u ti ans).1 u ti ans hr hm hin
  rw [h2]
  refine ⟨?_, rfl, rfl⟩
  rw [hgc]
  rfl

/-- C6 witness: in `sampleState`, two member verifications of channel 0 by
user 5 append 5 to `counted` once, the second replying `alreadyCounted`. -/
theorem C6_witness :
    ((5 : Int) ∈ (getCh sampleState 0).pending) ∧
    (verify_parsed (verify_parsed sampleState 5 0 (.status .member)).1 5 0
      (.status .member)).2 = .alreadyCounted ∧
    (getCh (verify_parsed (verify_parsed sampleState 5 0 (.status .member)).1 5 0
      (.status .member)).1 0).counted = (getCh sampleState 0).counted ++ [5] :=
  ⟨by decide,
    (C6_theorem sampleState 5 0 (.status .member) (by decide) (by decide) (by decide) rfl
      (by decide) (by decide)).2.1,
    (C6_theorem sampleState 5 0 (.status .member) (by decide) (by decide) (by decide) rfl
      (by decide) (by decide)).1⟩

/-! C7.  The claim says an oracle error makes `RequestAccess` and `Verify`
behave exactly like a not-a-member report.  `Verify` does; `/start` differs
from a left/kicked report for a counted user, because only left/kicked
cleans `counted` inside `ensure_pending` while an error leaves it. -/

/-- C7 counterexample: after a full rotation, counted user 1 issues
`/start`; with oracle errors the resulting state differs from the state
after the same `/start` with a left (not-a-member) report. -/
theorem C7_counterexample :
    (start (run rotationTrace) 1 .failure .failure).1 ≠
      (start (run rotationTrace) 1 (.status .left) (.status .left)).1 := by
  decide

/-- C7 (amended): a failing oracle is absorbed, never propagated: `Verify`
under an oracle error behaves exactly as under any not-a-member status, and
`/start` under oracle errors behaves exactly as under a `restricted`
(not-a-member, not-left/kicked) status; only left/kicked reports additionally
clean `counted`. -/
theorem C7_theorem (s : GlobalState) (u : Int) (d : String) (st : MemberStatus)
    (hst : st = .left ∨ st = .kicked ∨ st = .restricted) :
    verify_callback s u d .failure = verify_callback s u d (.status st) ∧
    start s u .failure .failure = start s u (.status .restricted) (.status .restricted) := by
  have hm1 : is_member (.status st) = false := by
    rcases hst with rfl | rfl | rfl <;> rfl
  constructor
  · unfold verify_callback
    cases hpd : parse_verify_data d with
    | none => simp [hpd]
    | some t =>
      simp only [hpd]
      rw [verify_parsed_notMember s u (t : Int) .failure rfl,
        verify_parsed_notMember s u (t : Int) (.status st) hm1]
  · rfl

/-- C7 witness: at the fresh state, a verify of channel 0 under an oracle
error equals the same verify under a left report. -/
theorem C7_witness :
    (MemberStatus.left = MemberStatus.left ∨ MemberStatus.left = MemberStatus.kicked ∨
      MemberStatus.left = MemberStatus.restricted) ∧
    verify_callback default_state 1 "verify_0" .failure =
      verify_callback default_state 1 "verify_0" (.status .left) :=
  ⟨Or.inl rfl, (C7_theorem default_state 1 "verify_0" .left (Or.inl rfl)).1⟩

/-! C8.  The claim says `Verify(u, -1)` and `Verify(u, channelCount)` both
return `InvalidChannel` with no state change.  A `-1` arrives as callback
data `"verify_-1"`, which fails the `isdigit` parse guard and yields the
malformed-request reply, a distinct reply from the out-of-range one; the
state is unchanged in both cases. -/

/-- C8 counterexample: callback data `"verify_-1"` yields the
malformed-request reply, not the invalid-channel reply (the state is
unchanged). -/
theorem C8_counterexample :
    (verify_callback default_state 5 "verify_-1" (.status .member)).2 = .malformed ∧
    (verify_callback default_state 5 "verify_-1" (.status .member)).2 ≠ .invalidChannel ∧
    (verify_callback default_state 5 "verify_-1" (.status .member)).1 = default_state := by
  decide

/-- C8 (amended): `"verify_-1"` — and any callback data failing the parse
guard — returns `malformed`; `"verify_3"` (`channelCount = 3`) — and any
out-of-range parsed index — returns `invalidChannel`; in every such case
the whole state is returned unchanged. -/
theorem C8_theorem :
    (∀ (s : GlobalState) (u : Int) (ans : OracleAnswer),
      verify_callback s u "verify_-1" ans = (s, .malformed)) ∧
    (∀ (s : GlobalState) (u : Int) (ans : OracleAnswer),
      verify_callback s u "verify_3" ans = (s, .invalidChannel)) ∧
    (∀ (s : GlobalState) (u ti : Int) (ans : OracleAnswer),
      ti < 0 ∨ (CHANNELS.length : Int) ≤ ti → verify_parsed s u ti ans = (s, .invalidChannel)) ∧
    (∀ (s : GlobalState) (u : Int) (d : String) (ans : OracleAnswer),
      parse_verify_data d = none → verify_callback s u d ans = (s, .malformed)) := by
  refine ⟨?_, ?_, ?_, ?_⟩
  · intro s u ans
    have h : parse_verify_data "verify_-1" = none := by decide
    simp [verify_callback, h]
  · intro s u ans
    have h : parse_verify_data "verify_3" = some 3 := by decide
    simp only [verify_callback, h]
    exact verify_parsed_invalid s u 3 ans (by decide)
  · intro s u ti ans h
    exact verify_parsed_invalid s u ti ans h
  · intro s u d ans h
    simp [verify_callback, h]

/-- C8 witness: index 5 is out of range, and the indexed verify on the
fresh state returns `invalidChannel` with the state unchanged. -/
theorem C8_witness :
    ((5 : Int) < 0 ∨ (CHANNELS.length : Int) ≤ 5) ∧
    verify_parsed default_state 9 5 (.status .member) = (default_state, .invalidChannel) :=
  ⟨by decide, C8_theorem.2.2.1 default_state 9 5 (.status .member) (by decide)⟩

/-! C9.  A member who is neither pending nor counted is not credited. -/

/-- C9: a user the oracle reports as member but who is in neither `pending`
nor `counted` of the (valid) target channel is not credited: the verify
returns `notPending` with the state unchanged, so the counted size is
unchanged too. -/
theorem C9_theorem (s : GlobalState) (u ti : Int) (ans : OracleAnswer)
    (ht0 : 0 ≤ ti) (ht1 : ti < (CHANNELS.length : Int))
    (hm : is_member ans = true)
    (hp : u ∉ (getCh s ti.toNat).pending) (hc : u ∉ (getCh s ti.toNat).counted) :
    verify_parsed s u ti ans = (s, .notPending) ∧
    (getCh (verify_parsed s u ti ans).1 ti.toNat).counted.length =
      (getCh s ti.toNat).counted.length := by
  have hr : ¬ (ti < 0 ∨ (CHANNELS.length : Int) ≤ ti) := by omega
  have h := verify_parsed_notPending s u ti ans hr hm hp hc
  exact ⟨h, by rw [h]⟩

/-- C9 witness: unknown user 5 verifying channel 1 of the fresh state gets
`notPending` and the state is unchanged. -/
theorem C9_witness :
    ((5 : Int) ∉ (getCh default_state 1).pending) ∧
    ((5 : Int) ∉ (getCh default_state 1).counted) ∧
    verify_parsed default_state 5 1 (.status .member) = (default_state, .notPending) :=
  ⟨by decide, by decide,
    (C9_theorem default_state 5 1 (.status .member) (by decide) (by decide) rfl (by decide)
      (by decide)).1⟩

/-! C10.  Frame property of a newly counting verify. -/

/-- C10: when `Verify(u, channelIndex)` newly counts `u`, channel
`channelIndex` has exactly `u` removed from `pending` and exactly `u`
appended to `counted`, and every other channel entry is unchanged. -/
theorem C10_theorem (s : GlobalState) (u ti : Int) (ans : OracleAnswer)
    (hlen : s.channels.length = CHANNELS.length)
    (ht0 : 0 ≤ ti) (ht1 : ti < (CHANNELS.length : Int))
    (hm : is_member ans = true)
    (hc : u ∉ (getCh s ti.toNat).counted) (hp : u ∈ (getCh s ti.toNat).pending) :
    (getCh (verify_parsed s u ti ans).1 ti.toNat).pending =
      ((getCh s ti.toNat).pending).erase u ∧
    (getCh (verify_parsed s u ti ans).1 ti.toNat).counted =
      (getCh s ti.toNat).counted ++ [u] ∧
    ∀ j : Nat, j ≠ ti.toNat → getCh (verify_parsed s u ti ans).1 j = getCh s j := by
  have hr : ¬ (ti < 0 ∨ (CHANNELS.length : Int) ≤ ti) := by omega
  have htn : ti.toNat < s.channels.length := by omega
  have hch := verify_parsed_newly_channels s u ti ans hr hm hc hp
  have hgc : getCh (verify_parsed s u ti ans).1 ti.toNat = credited (getCh s ti.toNat) u := by
    rw [getCh_congr hch, getCh_setCh_self s ti.toNat (credited (getCh s ti.toNat) u) htn]
  refine ⟨by rw [hgc]; rfl, by rw [hgc]; rfl, ?_⟩
  intro j hj
  rw [getCh_congr hch j,
    getCh_setCh_ne s ti.toNat j (credited (getCh s ti.toNat) u) (fun he => hj he.symm)]

/-- C10 witness: in `sampleState`, user 5's verify of channel 0 erases 5
from channel 0's `pending`, appends 5 to its `counted`, and leaves channel
1 untouched. -/
theorem C10_witness :
    ((5 : Int) ∈ (getCh sampleState 0).pending) ∧
    (getCh (verify_parsed sampleState 5 0 (.status .member)).1 0).pending =
      ((getCh sampleState 0).pending).erase 5 ∧
    (getCh (verify_parsed sampleState 5 0 (.status .member)).1 0).counted =
      (getCh sampleState 0).counted ++ [5] ∧
    getCh (verify_parsed sampleState 5 0 (.status .member)).1 1 = getCh sampleState 1 :=
  ⟨by decide,
    (C10_theorem sampleState 5 0 (.status .member) (by decide) (by decide) (by decide) rfl
      (by decide) (by decide)).1,
    (C10_theorem sampleState 5 0 (.status .member) (by decide) (by decide) (by decide) rfl
      (by decide) (by decide)).2.1,
    (C10_theorem sampleState 5 0 (.status .member) (by decide) (by decide) (by decide) rfl
      (by decide) (by decide)).2.2 1 (by decide)⟩

end Bot
